import Mathlib

/-!
Verification of the interactive GDS viewer in `gdsengine/gds_viewer.py`.

The viewer keeps a viewport `(sc, tx, ty)` mapping a world point `w` to the
screen point `w * sc + t` (componentwise).  The JavaScript embedded in
`show_interactive_viewer` implements wheel zoom, box zoom, fit-to-contents,
layer styling from an optional `.lyp` override document, and a per-frame
render loop with AABB culling.  All real-number arithmetic is modelled over
`ℚ`; the handlers below are direct transcriptions of the event listeners.
-/

namespace LuxViewer

/-- Truncation toward zero on rationals, as JavaScript converts the quotient
when evaluating the `%` remainder operator. -/
def jsTrunc (q : ℚ) : ℤ := if q < 0 then ⌈q⌉ else ⌊q⌋

/-- JavaScript `%` remainder: `a % b = a - b * trunc (a / b)`. -/
def jsMod (a b : ℚ) : ℚ := a - b * (jsTrunc (a / b) : ℚ)

/-- Viewport state of the viewer: scale `sc` and screen-space translation
`(tx, ty)`; world point `w` renders at `w * sc + t`. -/
structure Viewport where
  sc : ℚ
  tx : ℚ
  ty : ℚ
deriving DecidableEq

/-- Wheel listener update (gds_viewer.py line 846):
`tx=(tx-mx)*d+mx; ty=(ty-my)*d+my; sc*=d` for cursor position `(mx,my)`. -/
def wheelZoom (v : Viewport) (mx my d : ℚ) : Viewport :=
  ⟨v.sc * d, (v.tx - mx) * d + mx, (v.ty - my) * d + my⟩

/-- Zoom factor chosen by the wheel listener (line 845):
`d = e.deltaY < 0 ? 1.15 : 1/1.15`. -/
def wheelFactor (deltaY : ℚ) : ℚ := if deltaY < 0 then 23/20 else 20/23

/-- `fitView` (lines 713-720): `sc = min(W/GW, H/GH)*0.97`,
`tx = (W-GW*sc)/2 - GX*sc`, `ty = (H-GH*sc)/2 - GY*sc`. -/
def fitView (W H GX GY GW GH : ℚ) : Viewport :=
  let s := min (W / GW) (H / GH) * (97/100)
  ⟨s, (W - GW * s) / 2 - GX * s, (H - GH * s) / 2 - GY * s⟩

/-- Viewbox computed by `_build_cell_data` (lines 99-105) from the overall
vertex bounding box: `pad = max(w, h) * 0.02 or 1`, then
`vb = (mn_x - pad, mn_y - pad, w + 2*pad, h + 2*pad)`. -/
def buildViewbox (mnx mny mxx mxy : ℚ) : ℚ × ℚ × ℚ × ℚ :=
  let p := max (mxx - mnx) (mxy - mny) * (2/100)
  let pad := if p = 0 then 1 else p
  (mnx - pad, mny - pad, mxx - mnx + 2 * pad, mxy - mny + 2 * pad)

/-- Box-zoom viewport computation (mouseup listener lines 894-899) for press
point `(bx0,by0)` and clamped release point `(cx,cy)`: aspect-correct the
dragged rectangle to the canvas aspect ratio `W/H` by growing the shorter
dimension about its center, then set scale/translate so it fills the canvas. -/
def boxZoomRect (W H bx0 by0 cx cy : ℚ) (v : Viewport) : Viewport :=
  let nw := |cx - bx0|
  let nh := |cy - by0|
  let nx0 := min bx0 cx
  let ny0 := min by0 cy
  let cAR := W / H
  let sAR := nw / nh
  let nx1 := if sAR > cAR then nx0 else nx0 - (nh * cAR - nw) / 2
  let ny1 := if sAR > cAR then ny0 - (nw / cAR - nh) / 2 else ny0
  let nw1 := if sAR > cAR then nw else nh * cAR
  let wx0 := (nx1 - v.tx) / v.sc
  let wy0 := (ny1 - v.ty) / v.sc
  let sc2 := v.sc * W / nw1
  ⟨sc2, -wx0 * sc2, -wy0 * sc2⟩

/-- Full box-zoom commit from the mouseup listener in zoombox mode
(lines 878-901): `(rw,rh)` is the wrap rect size used for clamping,
`(ex,ey)` the release position relative to the rect, `vInit` the stored
initial (fitted) viewport `(iSc,iTx,iTy)`.  Returns the new viewport and
whether a render was triggered. -/
def boxZoomCommit (W H rw rh bx0 by0 ex ey : ℚ) (v vInit : Viewport) :
    Viewport × Bool :=
  let cx := max 0 (min rw ex)
  let cy := max 0 (min rh ey)
  let nw := |cx - bx0|
  let nh := |cy - by0|
  if nw < 6 ∨ nh < 6 then (v, false)
  else if ¬(ex ≥ bx0) ∧ ¬(ey ≥ by0) then (vInit, true)
  else (boxZoomRect W H bx0 by0 cx cy v, true)

/-- C1: cursor-anchored zoom.  For any viewport with `sc ≠ 0`, any zoom
factor `d ≠ 0` and any cursor position `(mx,my)`, the wheel-zoom update
`tx' = (tx-mx)*d + mx`, `ty' = (ty-my)*d + my`, `sc' = sc*d` leaves the world
point under the cursor unchanged:
`(mx-tx')/sc' = (mx-tx)/sc` and `(my-ty')/sc' = (my-ty)/sc`, exactly over
exact (rational) arithmetic. -/
theorem cursor_zoom_fixed_point (v : Viewport) (mx my d : ℚ)
    (hsc : v.sc ≠ 0) (hd : d ≠ 0) :
    (mx - (wheelZoom v mx my d).tx) / (wheelZoom v mx my d).sc
        = (mx - v.tx) / v.sc ∧
    (my - (wheelZoom v mx my d).ty) / (wheelZoom v mx my d).sc
        = (my - v.ty) / v.sc := by
  unfold wheelZoom
  constructor <;> · simp only
                    field_simp
                    ring

/-- Witness for C1 at scale 1, translation (2,3), cursor (5,7) and the
wheel-up factor 1.15. -/
theorem cursor_zoom_fixed_point_w :
    (Viewport.mk 1 2 3).sc ≠ 0 ∧ (23/20 : ℚ) ≠ 0 ∧
    ((5 - (wheelZoom ⟨1, 2, 3⟩ 5 7 (23/20)).tx)
        / (wheelZoom ⟨1, 2, 3⟩ 5 7 (23/20)).sc = (5 - (Viewport.mk 1 2 3).tx) / (Viewport.mk 1 2 3).sc ∧
     (7 - (wheelZoom ⟨1, 2, 3⟩ 5 7 (23/20)).ty)
        / (wheelZoom ⟨1, 2, 3⟩ 5 7 (23/20)).sc = (7 - (Viewport.mk 1 2 3).ty) / (Viewport.mk 1 2 3).sc) :=
  ⟨by norm_num, by norm_num,
   cursor_zoom_fixed_point ⟨1, 2, 3⟩ 5 7 (23/20) (by norm_num) (by norm_num)⟩

/-- C9: degenerate box-zoom is a no-op.  If the released rectangle has
clamped width or height below 6 pixels, the commit returns the viewport
unchanged and triggers no render. -/
theorem degenerate_boxzoom_noop (W H rw rh bx0 by0 ex ey : ℚ)
    (v vInit : Viewport)
    (h : |max 0 (min rw ex) - bx0| < 6 ∨ |max 0 (min rh ey) - by0| < 6) :
    boxZoomCommit W H rw rh bx0 by0 ex ey v vInit = (v, false) := by
  simp only [boxZoomCommit]
  rw [if_pos h]

/-- Witness for C9: a 3×40-pixel drag (width below the 6px threshold) leaves
the viewport `(2, 10, 20)` untouched. -/
theorem degenerate_boxzoom_noop_w :
    (|max 0 (min 800 103) - (100 : ℚ)| < 6 ∨
        |max 0 (min 600 140) - (100 : ℚ)| < 6) ∧
    boxZoomCommit 800 600 800 600 100 100 103 140 ⟨2, 10, 20⟩ ⟨1, 0, 0⟩
      = (⟨2, 10, 20⟩, false) :=
  ⟨by norm_num,
   degenerate_boxzoom_noop 800 600 800 600 100 100 103 140 ⟨2, 10, 20⟩
     ⟨1, 0, 0⟩ (by norm_num)⟩

/-- C10: a box-zoom drag passing the 6-pixel minimum whose release point is
strictly up AND left of the press point restores exactly the stored initial
fitted viewport `vInit` (a full reset), while a drag reversed in only one
axis performs the normal box zoom into the dragged rectangle. -/
theorem reverse_drag_resets (W H rw rh bx0 by0 ex ey : ℚ) (v vInit : Viewport)
    (h6w : 6 ≤ |max 0 (min rw ex) - bx0|)
    (h6h : 6 ≤ |max 0 (min rh ey) - by0|) :
    (ex < bx0 ∧ ey < by0 →
        boxZoomCommit W H rw rh bx0 by0 ex ey v vInit = (vInit, true)) ∧
    ((ex < bx0 ∧ by0 ≤ ey) ∨ (bx0 ≤ ex ∧ ey < by0) →
        boxZoomCommit W H rw rh bx0 by0 ex ey v vInit
          = (boxZoomRect W H bx0 by0 (max 0 (min rw ex)) (max 0 (min rh ey)) v,
             true)) := by
  constructor
  · rintro ⟨hx, hy⟩
    simp only [boxZoomCommit]
    rw [if_neg (by push_neg; exact ⟨h6w, h6h⟩),
        if_pos ⟨not_le.mpr hx, not_le.mpr hy⟩]
  · rintro (⟨hx, hy⟩ | ⟨hx, hy⟩) <;>
      · simp only [boxZoomCommit]
        rw [if_neg (by push_neg; exact ⟨h6w, h6h⟩)]
        rw [if_neg (by rintro ⟨c1, c2⟩; first | exact c2 hy | exact c1 hx)]

/-- Witness for C10: from press (100,100), the release (50,40) (up-left)
resets to the stored fit state `(1,0,0)`; the release (50,160) (left only)
performs the normal box zoom. -/
theorem reverse_drag_resets_w :
    ((6 : ℚ) ≤ |max 0 (min 800 50) - (100 : ℚ)| ∧
     (6 : ℚ) ≤ |max 0 (min 600 40) - (100 : ℚ)| ∧
     boxZoomCommit 800 600 800 600 100 100 50 40 ⟨2, 10, 20⟩ ⟨1, 0, 0⟩
       = (⟨1, 0, 0⟩, true)) ∧
    ((6 : ℚ) ≤ |max 0 (min 600 160) - (100 : ℚ)| ∧
     boxZoomCommit 800 600 800 600 100 100 50 160 ⟨2, 10, 20⟩ ⟨1, 0, 0⟩
       = (boxZoomRect 800 600 100 100 (max 0 (min 800 50))
            (max 0 (min 600 160)) ⟨2, 10, 20⟩, true)) :=
  ⟨⟨by norm_num, by norm_num,
    (reverse_drag_resets 800 600 800 600 100 100 50 40 ⟨2, 10, 20⟩ ⟨1, 0, 0⟩
      (by norm_num) (by norm_num)).1 (by norm_num)⟩,
   ⟨by norm_num,
    (reverse_drag_resets 800 600 800 600 100 100 50 160 ⟨2, 10, 20⟩ ⟨1, 0, 0⟩
      (by norm_num) (by norm_num)).2 (Or.inl (by norm_num))⟩⟩

theorem boxZoomRect_spec (W H bx0 by0 cx cy : ℚ) (v : Viewport)
    (hW : 0 < W) (hH : 0 < H) (hsc : v.sc ≠ 0)
    (hnw : 0 < |cx - bx0|) (hnh : 0 < |cy - by0|) :
    (boxZoomRect W H bx0 by0 cx cy v).sc ≠ 0 ∧
    (W / (boxZoomRect W H bx0 by0 cx cy v).sc)
        / (H / (boxZoomRect W H bx0 by0 cx cy v).sc) = W / H ∧
    ((bx0 + cx) / 2 - v.tx) / v.sc * (boxZoomRect W H bx0 by0 cx cy v).sc
        + (boxZoomRect W H bx0 by0 cx cy v).tx = W / 2 ∧
    ((by0 + cy) / 2 - v.ty) / v.sc * (boxZoomRect W H bx0 by0 cx cy v).sc
        + (boxZoomRect W H bx0 by0 cx cy v).ty = H / 2 := by
  have hW0 : W ≠ 0 := ne_of_gt hW
  have hH0 : H ≠ 0 := ne_of_gt hH
  have hx : |cx - bx0| = max bx0 cx - min bx0 cx := by
    rw [max_sub_min_eq_abs, abs_sub_comm]
  have hy : |cy - by0| = max by0 cy - min by0 cy := by
    rw [max_sub_min_eq_abs, abs_sub_comm]
  have hxs : bx0 + cx = min bx0 cx + max bx0 cx := (min_add_max _ _).symm
  have hys : by0 + cy = min by0 cy + max by0 cy := (min_add_max _ _).symm
  have hnw2 : max bx0 cx - min bx0 cx ≠ 0 := by rw [← hx]; exact ne_of_gt hnw
  have hnh2 : max by0 cy - min by0 cy ≠ 0 := by rw [← hy]; exact ne_of_gt hnh
  simp only [boxZoomRect, hx, hy, hxs, hys]
  set m := min bx0 cx with hm
  set M := max bx0 cx with hM
  set n := min by0 cy with hn
  set N := max by0 cy with hN
  split_ifs with hc
  · refine ⟨div_ne_zero (mul_ne_zero hsc hW0) hnw2, ?_, ?_, ?_⟩
    · field_simp
      ring
    · field_simp
      ring
    · field_simp
      ring
  · refine ⟨div_ne_zero (mul_ne_zero hsc hW0)
        (mul_ne_zero hnh2 (div_ne_zero hW0 hH0)), ?_, ?_, ?_⟩
    · field_simp
      ring
    · field_simp
      ring
    · field_simp
      ring

/-- C2: box-zoom aspect preservation.  For a committed box-zoom drag that
passes the 6-pixel minimum-size check and is not a reverse (up-left) drag,
the post-zoom viewport's world-space width-to-height ratio `(W/sc)/(H/sc)`
equals the canvas aspect ratio `W/H`, and the world point at the center of
the dragged rectangle (taken under the pre-zoom transform) maps to the canvas
center `(W/2, H/2)` under the post-zoom transform. -/
theorem box_zoom_aspect (W H rw rh bx0 by0 ex ey : ℚ) (v vInit : Viewport)
    (hW : 0 < W) (hH : 0 < H) (hsc : v.sc ≠ 0)
    (h6w : 6 ≤ |max 0 (min rw ex) - bx0|)
    (h6h : 6 ≤ |max 0 (min rh ey) - by0|)
    (hrev : bx0 ≤ ex ∨ by0 ≤ ey) :
    (boxZoomCommit W H rw rh bx0 by0 ex ey v vInit).2 = true ∧
    (W / (boxZoomCommit W H rw rh bx0 by0 ex ey v vInit).1.sc)
        / (H / (boxZoomCommit W H rw rh bx0 by0 ex ey v vInit).1.sc)
      = W / H ∧
    ((bx0 + max 0 (min rw ex)) / 2 - v.tx) / v.sc
          * (boxZoomCommit W H rw rh bx0 by0 ex ey v vInit).1.sc
        + (boxZoomCommit W H rw rh bx0 by0 ex ey v vInit).1.tx = W / 2 ∧
    ((by0 + max 0 (min rh ey)) / 2 - v.ty) / v.sc
          * (boxZoomCommit W H rw rh bx0 by0 ex ey v vInit).1.sc
        + (boxZoomCommit W H rw rh bx0 by0 ex ey v vInit).1.ty = H / 2 := by
  have hcommit : boxZoomCommit W H rw rh bx0 by0 ex ey v vInit
      = (boxZoomRect W H bx0 by0 (max 0 (min rw ex)) (max 0 (min rh ey)) v,
         true) := by
    simp only [boxZoomCommit]
    rw [if_neg (by push_neg; exact ⟨h6w, h6h⟩),
        if_neg (by rintro ⟨c1, c2⟩
                   rcases hrev with h | h
                   exacts [c1 h, c2 h])]
  rw [hcommit]
  have hs := boxZoomRect_spec W H bx0 by0 (max 0 (min rw ex))
    (max 0 (min rh ey)) v hW hH hsc
    (lt_of_lt_of_le (by norm_num) h6w) (lt_of_lt_of_le (by norm_num) h6h)
  exact ⟨rfl, hs.2.1, hs.2.2.1, hs.2.2.2⟩

/-- Witness for C2: canvas 800×600, press (100,100), release (300,200),
viewport `(1,0,0)`.  The dragged 200×100 rectangle is widened to aspect 4:3
and its center maps to the canvas center (400,300). -/
theorem box_zoom_aspect_w :
    ((0 : ℚ) < 800 ∧ (0 : ℚ) < 600 ∧ (Viewport.mk 1 0 0).sc ≠ 0 ∧
     (6 : ℚ) ≤ |max 0 (min 800 300) - (100 : ℚ)| ∧
     (6 : ℚ) ≤ |max 0 (min 600 200) - (100 : ℚ)| ∧
     ((100 : ℚ) ≤ 300 ∨ (100 : ℚ) ≤ 200)) ∧
    ((boxZoomCommit 800 600 800 600 100 100 300 200 ⟨1, 0, 0⟩ ⟨1, 0, 0⟩).2
        = true ∧
     (800 / (boxZoomCommit 800 600 800 600 100 100 300 200 ⟨1, 0, 0⟩
          ⟨1, 0, 0⟩).1.sc)
        / (600 / (boxZoomCommit 800 600 800 600 100 100 300 200 ⟨1, 0, 0⟩
          ⟨1, 0, 0⟩).1.sc)
       = (800 : ℚ) / 600 ∧
     ((100 + max 0 (min 800 300)) / 2 - (Viewport.mk 1 0 0).tx)
            / (Viewport.mk 1 0 0).sc
          * (boxZoomCommit 800 600 800 600 100 100 300 200 ⟨1, 0, 0⟩
              ⟨1, 0, 0⟩).1.sc
        + (boxZoomCommit 800 600 800 600 100 100 300 200 ⟨1, 0, 0⟩
            ⟨1, 0, 0⟩).1.tx = (800 : ℚ) / 2 ∧
     ((100 + max 0 (min 600 200)) / 2 - (Viewport.mk 1 0 0).ty)
            / (Viewport.mk 1 0 0).sc
          * (boxZoomCommit 800 600 800 600 100 100 300 200 ⟨1, 0, 0⟩
              ⟨1, 0, 0⟩).1.sc
        + (boxZoomCommit 800 600 800 600 100 100 300 200 ⟨1, 0, 0⟩
            ⟨1, 0, 0⟩).1.ty = (600 : ℚ) / 2) :=
  ⟨⟨by norm_num, by norm_num, by norm_num, by norm_num, by norm_num,
    by norm_num⟩,
   box_zoom_aspect 800 600 800 600 100 100 300 200 ⟨1, 0, 0⟩ ⟨1, 0, 0⟩
     (by norm_num) (by norm_num) (by norm_num) (by norm_num) (by norm_num)
     (by norm_num)⟩

/-- C4 counterexample: for a layout with overall bounding box (0,0)-(100,100)
on an 800×600 surface, `_build_cell_data` first pads the viewbox by 2%
(giving (-2,-2,104,104)), so `fitView` produces scale
`min(800/104,600/104)*0.97 = 291/52 ≈ 5.596`, which differs from the claimed
`min(800/100,600/100)*0.97 = 291/50 = 5.82` by more than 0.2. -/
theorem fit_scenario_cex :
    buildViewbox 0 0 100 100 = (-2, -2, 104, 104) ∧
    min ((800 : ℚ) / 100) (600 / 100) * (97/100) = 291/50 ∧
    (fitView 800 600 (-2) (-2) 104 104).sc = 291/52 ∧
    (1 : ℚ) / 5 < |(fitView 800 600 (-2) (-2) 104 104).sc - 291/50| := by
  refine ⟨?_, ?_, ?_, ?_⟩ <;>
    norm_num [buildViewbox, fitView, min_def, abs_sub_comm, abs_of_pos]

/-- C4 amended: on the padded viewbox (-2,-2,104,104) produced for bounding
box (0,0)-(100,100), `fitView` on an 800×600 surface yields scale
`min(800/104,600/104)*0.97 = 291/52 ≈ 5.596` and a translation mapping the
world point (50,50) to the surface center (400,300). -/
theorem fit_scenario_amended :
    buildViewbox 0 0 100 100 = (-2, -2, 104, 104) ∧
    (fitView 800 600 (-2) (-2) 104 104).sc
        = min ((800 : ℚ) / 104) (600 / 104) * (97/100) ∧
    (fitView 800 600 (-2) (-2) 104 104).sc = 291/52 ∧
    50 * (fitView 800 600 (-2) (-2) 104 104).sc
        + (fitView 800 600 (-2) (-2) 104 104).tx = 400 ∧
    50 * (fitView 800 600 (-2) (-2) 104 104).sc
        + (fitView 800 600 (-2) (-2) 104 104).ty = 300 := by
  refine ⟨?_, ?_, ?_, ?_, ?_⟩ <;> norm_num [buildViewbox, fitView, min_def]

/-- KLayout-style layer defaults `_LAYER_STYLES` (gds_viewer.py lines 10-27):
(fill_color, frame_color, stipple_index) per palette slot. -/
def LAYER_STYLES : List (String × String × ℕ) :=
  [("#ff0000", "#ff0000", 2),
   ("#00ff00", "#00ff00", 4),
   ("#0000ff", "#0000ff", 5),
   ("#ffff00", "#ffff00", 8),
   ("#ff00ff", "#ff00ff", 9),
   ("#00ffff", "#00ffff", 12),
   ("#ff8000", "#ff8000", 3),
   ("#80ff00", "#80ff00", 6),
   ("#0080ff", "#0080ff", 10),
   ("#ff0080", "#ff0080", 13),
   ("#80ff80", "#80ff80", 14),
   ("#8080ff", "#8080ff", 23),
   ("#ff8080", "#ff8080", 33),
   ("#80ffff", "#80ffff", 38),
   ("#ffff80", "#ffff80", 28),
   ("#ff80ff", "#ff80ff", 29)]

/-- Palette entry by sorted rank: `_LAYER_STYLES[i % len(_LAYER_STYLES)]`. -/
def styleAt (i : ℕ) : String × String × ℕ :=
  LAYER_STYLES.getD (i % LAYER_STYLES.length) ("", "", 0)

/-- One `<properties>` entry of a .lyp document, carrying the `findtext`
results read by `_parse_lyp` (`none` when the child element is absent). -/
structure LypEntry where
  visible : Option String
  source : Option String
  fillColor : Option String
  frameColor : Option String
  name : Option String
deriving DecidableEq

/-- Python `str.strip()`: drop leading and trailing whitespace. -/
def pyStrip (s : String) : String :=
  ⟨((s.data.dropWhile Char.isWhitespace).reverse.dropWhile
      Char.isWhitespace).reverse⟩

/-- Python `str.lower()` on the ASCII range. -/
def pyLower (s : String) : String := ⟨s.data.map Char.toLower⟩

def parseNatAux : List Char → ℕ → Option ℕ
  | [], acc => some acc
  | c :: rest, acc =>
    if c.isDigit then parseNatAux rest (acc * 10 + (c.toNat - 48)) else none

def parseNat (cs : List Char) : Option ℕ :=
  if cs.isEmpty then none else parseNatAux cs 0

/-- Python `int(...)` on a stripped decimal string; `none` models the
`ValueError` path. -/
def parseInt (cs : List Char) : Option ℤ :=
  match cs with
  | '-' :: rest => (parseNat rest).map (fun k => -(k : ℤ))
  | _ => (parseNat cs).map (fun k => (k : ℤ))

/-- Visibility test of `_parse_lyp` (line 46):
`props.findtext("visible", "true").strip().lower() == "false"`. -/
def entryVisibleFalse (e : LypEntry) : Bool :=
  pyLower (pyStrip (e.visible.getD "true")) == "false"

def entrySource (e : LypEntry) : String := pyStrip (e.source.getD "")

def entryFill (e : LypEntry) : String := pyStrip (e.fillColor.getD "")

def entryFrame (e : LypEntry) : String := pyStrip (e.frameColor.getD "")

def entryName (e : LypEntry) : String := pyStrip (e.name.getD "")

/-- Layer number parsed from the source text (line 55):
`int(source.split("/")[0])`, i.e. the integer read from the characters
before the first `/`; `none` models the `ValueError` path. -/
def sourceLayer (s : String) : Option ℤ :=
  parseInt (s.data.takeWhile (fun c => c != '/'))

/-- Override maps returned by `_parse_lyp`: fill colors, frame colors and
display names keyed by layer number. -/
structure LypMaps where
  fills : ℤ → Option String
  frames : ℤ → Option String
  names : ℤ → Option String

/-- Pointwise map update, modelling a Python dict assignment. -/
def updMap (m : ℤ → Option String) (k : ℤ) (v : String) : ℤ → Option String :=
  fun j => if j = k then some v else m j

/-- Processing of one `<properties>` entry by `_parse_lyp` (lines 46-61):
skip invisible entries, skip entries with empty source or fill color, skip
unparseable layer numbers; otherwise record fill, frame
(`frame_color or fill_color`) and, when nonempty, the display name. -/
def parseStep (m : LypMaps) (e : LypEntry) : LypMaps :=
  if entryVisibleFalse e then m
  else if entrySource e = "" ∨ entryFill e = "" then m
  else
    match sourceLayer (entrySource e) with
    | none => m
    | some layer =>
      ⟨updMap m.fills layer (entryFill e),
       updMap m.frames layer
         (if entryFrame e = "" then entryFill e else entryFrame e),
       if entryName e = "" then m.names
       else updMap m.names layer (entryName e)⟩

def parseLypAux (m : LypMaps) : List LypEntry → LypMaps
  | [] => m
  | e :: es => parseLypAux (parseStep m e) es

def emptyMaps : LypMaps := ⟨fun _ => none, fun _ => none, fun _ => none⟩

/-- `_parse_lyp` over the list of `<properties>` entries of the document. -/
def parseLyp (es : List LypEntry) : LypMaps := parseLypAux emptyMaps es

/-- Precomputed axis-aligned bounding box of one polygon. -/
structure BBox where
  x0 : ℚ
  y0 : ℚ
  x1 : ℚ
  y1 : ℚ
deriving DecidableEq

/-- One entry of the layers list built by `_build_cell_data` (lines 107-123):
layer number, display name, fill color, frame color, stipple index, flat
polygon vertex lists and per-polygon bounds. -/
structure LayerData where
  lnum : ℤ
  lname : String
  fill : String
  frame : String
  stip : ℕ
  polys : List (List ℚ)
  bounds : List BBox
deriving DecidableEq

def defaultLayer : LayerData := ⟨0, "", "", "", 0, [], []⟩

/-- Python's `sorted` over the distinct layer ids present in a cell. -/
def sortIds (l : List ℤ) : List ℤ := l.insertionSort (· ≤ ·)

/-- The `enumerate(sorted(layer_polys))` loop of `_build_cell_data`
(lines 108-123), carried out from rank `i`: each layer id receives the
palette entry at its rank, overridden per-layer by the .lyp maps. -/
def assignLayers (m : LypMaps) (polysFor : ℤ → List (List ℚ))
    (boundsFor : ℤ → List BBox) (i : ℕ) : List ℤ → List LayerData
  | [] => []
  | nId :: l =>
    { lnum := nId
      lname := (m.names nId).getD (toString nId ++ "/0")
      fill := (m.fills nId).getD (styleAt i).1
      frame := (m.frames nId).getD (styleAt i).2.1
      stip := (styleAt i).2.2
      polys := polysFor nId
      bounds := boundsFor nId } :: assignLayers m polysFor boundsFor (i + 1) l

/-- `_build_cell_data` layer construction from the per-polygon records
`(layer, flat vertices, bounds)` of one cell. -/
def buildCellLayers (m : LypMaps)
    (cellPolys : List (ℤ × List ℚ × BBox)) : List LayerData :=
  assignLayers m
    (fun nId => (cellPolys.filter (fun p => p.1 == nId)).map (fun p => p.2.1))
    (fun nId => (cellPolys.filter (fun p => p.1 == nId)).map (fun p => p.2.2))
    0 (sortIds (cellPolys.map (fun p => p.1)).dedup)

/-- Canvas operations issued by `render` that we track: the per-layer stipple
phase anchoring `pat.setTransform` and the per-polygon fill and stroke. -/
inductive DrawCall where
  | setTransform : ℕ → ℚ × ℚ → DrawCall
  | fill : ℕ → ℕ → DrawCall
  | stroke : ℕ → ℕ → DrawCall
deriving DecidableEq

/-- Cull test of `render` (line 793): the polygon is skipped when its AABB
misses the world-space viewport rectangle, i.e. when
`bx1<wxMin || bx0>wxMax || by1<wyMin || by0>wyMax` with `wxMin=-tx/sc`,
`wxMax=(W-tx)/sc`, `wyMin=-ty/sc`, `wyMax=(H-ty)/sc`. -/
def cullMiss (b : BBox) (sc tx ty W H : ℚ) : Prop :=
  b.x1 < -tx / sc ∨ b.x0 > (W - tx) / sc ∨
  b.y1 < -ty / sc ∨ b.y0 > (H - ty) / sc

instance (b : BBox) (sc tx ty W H : ℚ) :
    Decidable (cullMiss b sc tx ty W H) := by
  unfold cullMiss; infer_instance

/-- The `render` loop (lines 772-813): for each non-hidden layer, anchor the
stipple pattern with `pat.setTransform(...[, tx%1, ty%1])`, then for each
polygon skip it when its AABB misses the world-space viewport and otherwise
fill and stroke it whole. -/
def render (L : List LayerData) (hidden : ℤ → Bool) (sc tx ty W H : ℚ) :
    List DrawCall :=
  (List.range L.length).flatMap fun li =>
    let lay := L.getD li defaultLayer
    if hidden lay.lnum then []
    else
      DrawCall.setTransform li (jsMod tx 1, jsMod ty 1) ::
      ((List.range lay.polys.length).flatMap fun pi =>
        if cullMiss (lay.bounds.getD pi ⟨0, 0, 0, 0⟩) sc tx ty W H then []
        else [DrawCall.fill li pi, DrawCall.stroke li pi])

theorem mem_ite_nil {α : Type} (c : Prop) [Decidable c] (l : List α) (a : α) :
    a ∈ (if c then ([] : List α) else l) ↔ ¬c ∧ a ∈ l := by
  split_ifs with h <;> simp [h]

theorem mem_render_fill (L : List LayerData) (hidden : ℤ → Bool)
    (sc tx ty W H : ℚ) (li pi : ℕ) :
    DrawCall.fill li pi ∈ render L hidden sc tx ty W H ↔
      li < L.length ∧ hidden (L.getD li defaultLayer).lnum = false ∧
      pi < (L.getD li defaultLayer).polys.length ∧
      ¬cullMiss ((L.getD li defaultLayer).bounds.getD pi ⟨0, 0, 0, 0⟩)
        sc tx ty W H := by
  simp only [render, List.mem_flatMap, List.mem_range, mem_ite_nil,
    List.mem_cons, List.not_mem_nil, or_false, Bool.not_eq_true]
  constructor
  · rintro ⟨li2, hli2, hh, heq | ⟨pi2, hpi2, hcull, heq | heq⟩⟩
    · cases heq
    · injection heq with h1 h2
      subst h1
      subst h2
      exact ⟨hli2, hh, hpi2, hcull⟩
    · cases heq
  · rintro ⟨hli, hh, hpi, hcull⟩
    exact ⟨li, hli, hh, Or.inr ⟨pi, hpi, hcull, Or.inl rfl⟩⟩

theorem mem_render_stroke (L : List LayerData) (hidden : ℤ → Bool)
    (sc tx ty W H : ℚ) (li pi : ℕ) :
    DrawCall.stroke li pi ∈ render L hidden sc tx ty W H ↔
      li < L.length ∧ hidden (L.getD li defaultLayer).lnum = false ∧
      pi < (L.getD li defaultLayer).polys.length ∧
      ¬cullMiss ((L.getD li defaultLayer).bounds.getD pi ⟨0, 0, 0, 0⟩)
        sc tx ty W H := by
  simp only [render, List.mem_flatMap, List.mem_range, mem_ite_nil,
    List.mem_cons, List.not_mem_nil, or_false, Bool.not_eq_true]
  constructor
  · rintro ⟨li2, hli2, hh, heq | ⟨pi2, hpi2, hcull, heq | heq⟩⟩
    · cases heq
    · cases heq
    · injection heq with h1 h2
      subst h1
      subst h2
      exact ⟨hli2, hh, hpi2, hcull⟩
  · rintro ⟨hli, hh, hpi, hcull⟩
    exact ⟨li, hli, hh, Or.inr ⟨pi, hpi, hcull, Or.inr rfl⟩⟩

theorem mem_render_setTransform (L : List LayerData) (hidden : ℤ → Bool)
    (sc tx ty W H : ℚ) (li : ℕ) (ph : ℚ × ℚ) :
    DrawCall.setTransform li ph ∈ render L hidden sc tx ty W H ↔
      li < L.length ∧ hidden (L.getD li defaultLayer).lnum = false ∧
      ph = (jsMod tx 1, jsMod ty 1) := by
  simp only [render, List.mem_flatMap, List.mem_range, mem_ite_nil,
    List.mem_cons, List.not_mem_nil, or_false, Bool.not_eq_true]
  constructor
  · rintro ⟨li2, hli2, hh, heq | ⟨pi2, hpi2, hcull, heq | heq⟩⟩
    · injection heq with h1 h2
      subst h1
      subst h2
      exact ⟨hli2, hh, rfl⟩
    · cases heq
    · cases heq
  · rintro ⟨hli, hh, rfl⟩
    exact ⟨li, hli, hh, Or.inl rfl⟩

/-- C3: culling correctness.  For every polygon of a visible (non-hidden)
layer in a rendered frame, a fill call is issued exactly when the polygon's
precomputed AABB intersects the world-space viewport rectangle
`[-tx/sc,(W-tx)/sc] × [-ty/sc,(H-ty)/sc]` (closed-rectangle intersection,
including partial overlap), and likewise for the stroke call: when the AABB
misses the viewport neither a fill nor a stroke call is issued, and when it
intersects (even partially), both are issued for the whole polygon. -/
theorem culling_correct (L : List LayerData) (hidden : ℤ → Bool)
    (sc tx ty W H : ℚ) (li pi : ℕ) (hli : li < L.length)
    (hvis : hidden (L.getD li defaultLayer).lnum = false)
    (hpi : pi < (L.getD li defaultLayer).polys.length) :
    (DrawCall.fill li pi ∈ render L hidden sc tx ty W H ↔
     (-tx / sc ≤ ((L.getD li defaultLayer).bounds.getD pi ⟨0, 0, 0, 0⟩).x1 ∧
      ((L.getD li defaultLayer).bounds.getD pi ⟨0, 0, 0, 0⟩).x0
        ≤ (W - tx) / sc ∧
      -ty / sc ≤ ((L.getD li defaultLayer).bounds.getD pi ⟨0, 0, 0, 0⟩).y1 ∧
      ((L.getD li defaultLayer).bounds.getD pi ⟨0, 0, 0, 0⟩).y0
        ≤ (H - ty) / sc)) ∧
    (DrawCall.stroke li pi ∈ render L hidden sc tx ty W H ↔
     (-tx / sc ≤ ((L.getD li defaultLayer).bounds.getD pi ⟨0, 0, 0, 0⟩).x1 ∧
      ((L.getD li defaultLayer).bounds.getD pi ⟨0, 0, 0, 0⟩).x0
        ≤ (W - tx) / sc ∧
      -ty / sc ≤ ((L.getD li defaultLayer).bounds.getD pi ⟨0, 0, 0, 0⟩).y1 ∧
      ((L.getD li defaultLayer).bounds.getD pi ⟨0, 0, 0, 0⟩).y0
        ≤ (H - ty) / sc)) := by
  have hiff : ¬cullMiss ((L.getD li defaultLayer).bounds.getD pi ⟨0, 0, 0, 0⟩)
      sc tx ty W H ↔
      (-tx / sc ≤ ((L.getD li defaultLayer).bounds.getD pi ⟨0, 0, 0, 0⟩).x1 ∧
       ((L.getD li defaultLayer).bounds.getD pi ⟨0, 0, 0, 0⟩).x0
         ≤ (W - tx) / sc ∧
       -ty / sc ≤ ((L.getD li defaultLayer).bounds.getD pi ⟨0, 0, 0, 0⟩).y1 ∧
       ((L.getD li defaultLayer).bounds.getD pi ⟨0, 0, 0, 0⟩).y0
         ≤ (H - ty) / sc) := by
    unfold cullMiss
    push_neg
    rfl
  rw [mem_render_fill, mem_render_stroke]
  constructor
  · rw [← hiff]
    constructor
    · rintro ⟨-, -, -, h⟩
      exact h
    · intro h
      exact ⟨hli, hvis, hpi, h⟩
  · rw [← hiff]
    constructor
    · rintro ⟨-, -, -, h⟩
      exact h
    · intro h
      exact ⟨hli, hvis, hpi, h⟩

/-- One-layer fixture: layer 5 with default palette slot 0 (stipple 2, a
2×2-pixel dotted tile) holding one triangle with bounds (0,0)-(10,10). -/
def demoLayer : LayerData :=
  ⟨5, "5/0", "#ff0000", "#ff0000", 2, [[0, 0, 10, 0, 10, 10]], [⟨0, 0, 10, 10⟩]⟩

def demoLayers : List LayerData := [demoLayer]

/-- Witness for C3 on the one-layer fixture with viewport `(1,0,0)` on an
800×600 canvas: both the fill call and the stroke call for the polygon are
each issued exactly when its AABB (0,0)-(10,10) intersects the world
viewport. -/
theorem culling_correct_w :
    (0 < demoLayers.length ∧
     (fun _ => false) (demoLayers.getD 0 defaultLayer).lnum = false ∧
     0 < (demoLayers.getD 0 defaultLayer).polys.length) ∧
    ((DrawCall.fill 0 0 ∈ render demoLayers (fun _ => false) 1 0 0 800 600 ↔
      (-(0 : ℚ) / 1 ≤ ((demoLayers.getD 0 defaultLayer).bounds.getD 0
           ⟨0, 0, 0, 0⟩).x1 ∧
       ((demoLayers.getD 0 defaultLayer).bounds.getD 0 ⟨0, 0, 0, 0⟩).x0
         ≤ ((800 : ℚ) - 0) / 1 ∧
       -(0 : ℚ) / 1 ≤ ((demoLayers.getD 0 defaultLayer).bounds.getD 0
           ⟨0, 0, 0, 0⟩).y1 ∧
       ((demoLayers.getD 0 defaultLayer).bounds.getD 0 ⟨0, 0, 0, 0⟩).y0
         ≤ ((600 : ℚ) - 0) / 1)) ∧
     (DrawCall.stroke 0 0 ∈ render demoLayers (fun _ => false) 1 0 0 800 600 ↔
      (-(0 : ℚ) / 1 ≤ ((demoLayers.getD 0 defaultLayer).bounds.getD 0
           ⟨0, 0, 0, 0⟩).x1 ∧
       ((demoLayers.getD 0 defaultLayer).bounds.getD 0 ⟨0, 0, 0, 0⟩).x0
         ≤ ((800 : ℚ) - 0) / 1 ∧
       -(0 : ℚ) / 1 ≤ ((demoLayers.getD 0 defaultLayer).bounds.getD 0
           ⟨0, 0, 0, 0⟩).y1 ∧
       ((demoLayers.getD 0 defaultLayer).bounds.getD 0 ⟨0, 0, 0, 0⟩).y0
         ≤ ((600 : ℚ) - 0) / 1))) :=
  ⟨⟨by decide, by decide, by decide⟩,
   culling_correct demoLayers (fun _ => false) 1 0 0 800 600 0 0
     (by decide) (by decide) (by decide)⟩

/-- KLayout built-in stipple bitmaps (`STIPPLES`, gds_viewer.py lines
378-505): each entry is a list of row strings, one character per pixel of the
tile used by `buildStipplePattern` (the tile canvas is
`bmp[0].length × bmp.length` pixels). -/
def STIPPLES : List (List String) :=
  [["*"],
   ["."],
   ["*.", ".*"],
   ["*...", "....", "..*.", "...."],
   ["*...", ".*..", "..*.", "...*"],
   ["*.......", ".*......", "..*.....", "...*....",
    "....*...", ".....*..", "......*.", ".......*"],
   ["**..", ".**.", "..**", "*..*"],
   ["**......", ".**.....", "..**....", "...**...", "....**..",
    ".....**.", "......**", "*......*"],
   ["*...", "...*", "..*.", ".*.."],
   ["*.......", ".......*", "......*.", ".....*..",
    "....*...", "...*....", "..*.....", ".*......"],
   ["**..", "*..*", "..**", ".**."],
   ["**......", "*......*", "......**", ".....**.",
    "....**..", "...**...", "..**....", ".*......"],
   ["*...", ".*.*", "..*.", ".*.*"],
   ["*.......", ".*.....*", "..*...*.", "...*.*..",
    "....*...", "...*.*..", "..*...*.", ".*.....*"],
   ["**..", "**..", "..**", "..**"],
   ["**......", "***....*", "..**..**", "...****.",
    "....**..", "...****.", "..**..**", "***....*"],
   ["****....", "****....", "****....", "****....",
    "....****", "....****", "....****", "....****"],
   [".*...*..", "*.*.....", ".*...*..", "....*.*.",
    ".*...*..", "*.*.....", ".*...*..", "....*.*."],
   [".*...*..", "***.....", ".*...*..", "....***.",
    ".*...*..", "***.....", ".*...*..", "....***."],
   [".*......", "*.*.....", "****...*", "........",
    "....*...", "...*.*..", "..*****.", "........"],
   ["****...*", "*.*.....", ".*......", "........",
    "..*****.", "...*.*..", "....*...", "........"],
   ["..*...*.", "..*.....", "*****...", "..*.....",
    "..*...*.", "......*.", "*...****", "......*."],
   ["........", "........", "*****...", "........",
    "........", "........", "*...****", "........"],
   ["*......*", ".**.....", "...**...", ".....**.",
    "*......*", ".**.....", "...**...", ".....**."],
   ["*......*", ".....**.", "...**...", ".**.....",
    "*......*", ".....**.", "...**...", ".*......"],
   ["*...*...", ".*...*..", ".*...*..", "..*...*.",
    "..*...*.", "...*...*", "...*...*", "*...*..."],
   ["...*...*", "..*...*.", "..*...*.", ".*...*..",
    ".*...*..", "*...*...", "*...*...", "...*...*"],
   ["*......*", ".**..**.", "...**...", ".**..**.",
    "*......*", ".**..**.", "...**...", ".**..**."],
   ["..*...*.", ".*.*.*.*", "*...*...", "........",
    "..*...*.", ".*.*.*.*", "*...*...", "........"],
   ["..***...", ".*...*..", "*.....**", "........",
    "..***...", ".*...*..", "*.....**", "........"],
   ["****.*.*", "**.****.", "*.**.***", "*****.*.",
    ".**.****", "**.***.*", ".****.**", "*.*.****"],
   ["....*.*.", "..*....*", ".*..*...", ".....*.*",
    "*..*....", "..*...*.", "*....*..", ".*.*...."],
   ["*.", "*."],
   [".*..", ".*..", ".*..", ".*.."],
   [".**.", ".**.", ".**.", ".**."],
   ["...*....", "...*....", "...*....", "...*...."],
   ["...**...", "...**...", "...**...", "...**..."],
   ["**", ".."],
   ["....", "****", "....", "...."],
   ["....", "****", "****", "...."],
   ["........", "........", "........", "********"],
   ["........", "........", "********", "********"]]

/-- C6 counterexample: with translation `tx = 3` and the fixture layer using
stipple index 2 — whose tile is 2×2 pixels — `render` anchors the fill
pattern with phase `(tx % 1, ty % 1) = (0, 0)` (screen pixel grid), not
`(tx % tileW, ty % tileH) = (1, 0)` as the claimed "translation modulo the
pattern tile size" requires; the claimed phase is never emitted. -/
theorem pattern_phase_cex :
    demoLayer.stip = 2 ∧
    (STIPPLES.getD 2 []).length = 2 ∧
    ((STIPPLES.getD 2 []).getD 0 "").length = 2 ∧
    jsMod 3 1 = 0 ∧ jsMod 3 2 = 1 ∧
    DrawCall.setTransform 0 (jsMod 3 1, jsMod 0 1)
      ∈ render demoLayers (fun _ => false) 1 3 0 800 600 ∧
    DrawCall.setTransform 0 (jsMod 3 2, jsMod 0 2)
      ∉ render demoLayers (fun _ => false) 1 3 0 800 600 := by
  have h31 : jsMod 3 1 = 0 := by norm_num [jsMod, jsTrunc]
  have h32 : jsMod 3 2 = 1 := by norm_num [jsMod, jsTrunc]
  have h01 : jsMod 0 1 = 0 := by norm_num [jsMod, jsTrunc]
  have h02 : jsMod 0 2 = 0 := by norm_num [jsMod, jsTrunc]
  refine ⟨rfl, by decide, by decide, h31, h32, ?_, ?_⟩
  · exact (mem_render_setTransform demoLayers (fun _ => false) 1 3 0 800 600
      0 _).mpr ⟨by decide, rfl, rfl⟩
  · intro hmem
    have hph := ((mem_render_setTransform demoLayers (fun _ => false)
      1 3 0 800 600 0 _).mp hmem).2.2
    rw [h32, h02, h31, h01] at hph
    simp [Prod.ext_iff] at hph

/-- C6 amended: on every rendered frame, each visible layer's fill-pattern
phase offset is set to the screen-space translation modulo one pixel
`(tx % 1, ty % 1)` — anchoring the stipple to the screen pixel grid, not to
world space — and no other phase is ever emitted; the tile bitmap itself is
not regenerated by `render`. -/
theorem pattern_phase_amended (L : List LayerData) (hidden : ℤ → Bool)
    (sc tx ty W H : ℚ) (li : ℕ) (hli : li < L.length)
    (hvis : hidden (L.getD li defaultLayer).lnum = false) :
    DrawCall.setTransform li (jsMod tx 1, jsMod ty 1)
      ∈ render L hidden sc tx ty W H ∧
    ∀ li2 ph, DrawCall.setTransform li2 ph ∈ render L hidden sc tx ty W H →
      ph = (jsMod tx 1, jsMod ty 1) := by
  refine ⟨(mem_render_setTransform L hidden sc tx ty W H li _).mpr
    ⟨hli, hvis, rfl⟩, ?_⟩
  intro li2 ph h
  exact ((mem_render_setTransform L hidden sc tx ty W H li2 ph).mp h).2.2

/-- Witness for the amended C6 on the one-layer fixture with translation
(3,0): the emitted phase is `(3 % 1, 0 % 1)`. -/
theorem pattern_phase_amended_w :
    (0 < demoLayers.length ∧
     (fun _ => false) (demoLayers.getD 0 defaultLayer).lnum = false) ∧
    (DrawCall.setTransform 0 (jsMod 3 1, jsMod 0 1)
       ∈ render demoLayers (fun _ => false) 1 3 0 800 600 ∧
     ∀ li2 ph,
       DrawCall.setTransform li2 ph
         ∈ render demoLayers (fun _ => false) 1 3 0 800 600 →
       ph = (jsMod 3 1, jsMod 0 1)) :=
  ⟨⟨by decide, by decide⟩,
   pattern_phase_amended demoLayers (fun _ => false) 1 3 0 800 600 0
     (by decide) (by decide)⟩

/-- A .lyp entry carrying `visible=false` for layer 7 with an explicit fill
color and name. -/
def invisEntry : LypEntry :=
  ⟨some "false", some "7/0", some "#123456", none, some "metal1"⟩

def invisMaps : LypMaps := parseLyp [invisEntry]

/-- Layers of a cell holding one layer-7 triangle, styled through the maps
parsed from the `visible=false` document. -/
def invisLayers : List LayerData :=
  buildCellLayers invisMaps [(7, [0, 0, 10, 0, 10, 10], ⟨0, 0, 10, 10⟩)]

/-- C5 counterexample: the layer whose .lyp entry carries `visible=false` is
NOT excluded from rendering.  `_parse_lyp` merely skips the entry when
building the override maps (so layer 7 gets no fill override and falls back
to the default palette), and the render-side hidden set starts empty, so
both a fill and a stroke call are issued for the layer's polygon. -/
theorem invisible_layer_cex :
    entryVisibleFalse invisEntry = true ∧
    invisMaps.fills 7 = none ∧ invisMaps.names 7 = none ∧
    (invisLayers.getD 0 defaultLayer).lnum = 7 ∧
    (invisLayers.getD 0 defaultLayer).fill = "#ff0000" ∧
    DrawCall.fill 0 0 ∈ render invisLayers (fun _ => false) 1 0 0 800 600 ∧
    DrawCall.stroke 0 0 ∈ render invisLayers (fun _ => false) 1 0 0 800 600
    := by
  have hb : (invisLayers.getD 0 defaultLayer).bounds.getD 0 ⟨0, 0, 0, 0⟩
      = ⟨0, 0, 10, 10⟩ := rfl
  have hcull : ¬cullMiss ((invisLayers.getD 0 defaultLayer).bounds.getD 0
      ⟨0, 0, 0, 0⟩) 1 0 0 800 600 := by
    rw [hb]
    norm_num [cullMiss]
  refine ⟨by decide, by decide, by decide, by decide, by decide, ?_, ?_⟩
  · exact (mem_render_fill invisLayers (fun _ => false) 1 0 0 800 600
      0 0).mpr ⟨by decide, rfl, by decide, hcull⟩
  · exact (mem_render_stroke invisLayers (fun _ => false) 1 0 0 800 600
      0 0).mpr ⟨by decide, rfl, by decide, hcull⟩

/-- C5 amended: an entry whose `visible` flag reads `false` is skipped
per-entry when `_parse_lyp` builds the override maps — it contributes no
fill color, frame color or name — but this does not hide the layer: the
render-side hidden set is independent (and initially empty), so such a layer
is still drawn with default palette styling. -/
theorem invisible_entry_skipped (e : LypEntry) (es : List LypEntry)
    (m : LypMaps) (h : entryVisibleFalse e = true) :
    parseLypAux m (e :: es) = parseLypAux m es := by
  simp only [parseLypAux, parseStep, h, if_true]

/-- Witness for the amended C5: the `visible=false` entry for layer 7 leaves
the parse state untouched. -/
theorem invisible_entry_skipped_w :
    entryVisibleFalse invisEntry = true ∧
    parseLypAux emptyMaps [invisEntry] = parseLypAux emptyMaps [] :=
  ⟨by decide, invisible_entry_skipped invisEntry [] emptyMaps (by decide)⟩

/-- An entry is accepted by `_parse_lyp` for layer `n` when it is visible,
has nonempty source and fill color, and its source parses to layer `n`. -/
def entryAccepts (e : LypEntry) (n : ℤ) : Prop :=
  entryVisibleFalse e = false ∧ ¬(entrySource e = "" ∨ entryFill e = "") ∧
  sourceLayer (entrySource e) = some n

instance (e : LypEntry) (n : ℤ) : Decidable (entryAccepts e n) := by
  unfold entryAccepts
  infer_instance

/-- The last entry of the document accepted for layer `n` — the one whose
dict assignments win in `_parse_lyp`. -/
def lastFor (n : ℤ) : List LypEntry → Option LypEntry
  | [] => none
  | e :: es =>
    match lastFor n es with
    | some e2 => some e2
    | none => if entryAccepts e n then some e else none

theorem parseStep_fills (m : LypMaps) (e : LypEntry) (n : ℤ) :
    (parseStep m e).fills n =
      if entryAccepts e n then some (entryFill e) else m.fills n := by
  by_cases h1 : entryVisibleFalse e = true
  · simp [parseStep, entryAccepts, h1]
  · rw [Bool.not_eq_true] at h1
    by_cases h2 : entrySource e = "" ∨ entryFill e = ""
    · simp [parseStep, entryAccepts, h1, h2]
    · rcases h3 : sourceLayer (entrySource e) with _ | k
      · simp [parseStep, entryAccepts, h1, h2, h3]
      · by_cases h4 : n = k
        · subst h4
          simp [parseStep, entryAccepts, updMap, h1, h2, h3]
        · have h4s : ¬((k : ℤ) = n) := fun hh => h4 hh.symm
          simp [parseStep, entryAccepts, updMap, h1, h2, h3, h4, h4s]

theorem parseStep_frames (m : LypMaps) (e : LypEntry) (n : ℤ) :
    (parseStep m e).frames n =
      if entryAccepts e n then
        some (if entryFrame e = "" then entryFill e else entryFrame e)
      else m.frames n := by
  by_cases h1 : entryVisibleFalse e = true
  · simp [parseStep, entryAccepts, h1]
  · rw [Bool.not_eq_true] at h1
    by_cases h2 : entrySource e = "" ∨ entryFill e = ""
    · simp [parseStep, entryAccepts, h1, h2]
    · rcases h3 : sourceLayer (entrySource e) with _ | k
      · simp [parseStep, entryAccepts, h1, h2, h3]
      · by_cases h4 : n = k
        · subst h4
          simp [parseStep, entryAccepts, updMap, h1, h2, h3]
        · have h4s : ¬((k : ℤ) = n) := fun hh => h4 hh.symm
          simp [parseStep, entryAccepts, updMap, h1, h2, h3, h4, h4s]

theorem fills_eq_lastFor (es : List LypEntry) :
    ∀ (m : LypMaps) (n : ℤ),
      (parseLypAux m es).fills n =
        match lastFor n es with
        | some e => some (entryFill e)
        | none => m.fills n := by
  induction es with
  | nil => intro m n; rfl
  | cons e es ih =>
    intro m n
    simp only [parseLypAux, lastFor]
    rw [ih]
    rcases h : lastFor n es with _ | e2
    · rw [parseStep_fills]
      by_cases ha : entryAccepts e n <;> simp [ha]
    · rfl

theorem frames_eq_lastFor (es : List LypEntry) :
    ∀ (m : LypMaps) (n : ℤ),
      (parseLypAux m es).frames n =
        match lastFor n es with
        | some e =>
          some (if entryFrame e = "" then entryFill e else entryFrame e)
        | none => m.frames n := by
  induction es with
  | nil => intro m n; rfl
  | cons e es ih =>
    intro m n
    simp only [parseLypAux, lastFor]
    rw [ih]
    rcases h : lastFor n es with _ | e2
    · rw [parseStep_frames]
      by_cases ha : entryAccepts e n <;> simp [ha]
    · rfl

/-- Every palette entry of `_LAYER_STYLES` has frame color equal to its fill
color. -/
theorem styleAt_frame_eq_fill (i : ℕ) : (styleAt i).2.1 = (styleAt i).1 := by
  have h : i % LAYER_STYLES.length < 16 := by
    have hlen : LAYER_STYLES.length = 16 := rfl
    rw [hlen]
    exact Nat.mod_lt _ (by norm_num)
  have h16 : ∀ j : Fin 16,
      (LAYER_STYLES.getD (j : ℕ) ("", "", 0)).2.1
        = (LAYER_STYLES.getD (j : ℕ) ("", "", 0)).1 := by decide
  exact h16 ⟨i % LAYER_STYLES.length, h⟩

/-- C7: stroke-color default.  For the layer at rank `i`, when the .lyp
document explicitly supplies a frame color (the winning entry's frame text is
nonempty), the resolved stroke color is exactly that color; when no frame
color is supplied — either the winning entry's frame text is empty, so
`_parse_lyp` falls back to `frame_color or fill_color`, or no entry was
accepted for the layer at all, so the default palette (whose frame always
equals its fill) applies — the resolved stroke color equals the resolved
fill color. -/
theorem stroke_color_default (es : List LypEntry) (n : ℤ) (i : ℕ) :
    (∀ e, lastFor n es = some e → entryFrame e ≠ "" →
        ((parseLyp es).frames n).getD (styleAt i).2.1 = entryFrame e) ∧
    (∀ e, lastFor n es = some e → entryFrame e = "" →
        ((parseLyp es).frames n).getD (styleAt i).2.1
          = ((parseLyp es).fills n).getD (styleAt i).1) ∧
    (lastFor n es = none →
        ((parseLyp es).frames n).getD (styleAt i).2.1
          = ((parseLyp es).fills n).getD (styleAt i).1) := by
  have hf := fills_eq_lastFor es emptyMaps n
  have hr := frames_eq_lastFor es emptyMaps n
  refine ⟨?_, ?_, ?_⟩
  · intro e he hne
    unfold parseLyp
    rw [hr, he]
    simp [hne]
  · intro e he he2
    unfold parseLyp
    rw [hr, hf, he]
    simp [he2]
  · intro he
    unfold parseLyp
    rw [hr, hf, he]
    simpa using styleAt_frame_eq_fill i

/-- Entry supplying an explicit frame color for layer 7. -/
def e7 : LypEntry := ⟨none, some "7/0", some "#112233", some "#445566", none⟩

/-- Entry for layer 9 with no frame color. -/
def e9 : LypEntry := ⟨none, some "9/0", some "#aabbcc", none, none⟩

def c7Entries : List LypEntry := [e7, e9]

/-- Witness for C7: layer 7's explicit frame "#445566" takes precedence;
layer 9's stroke falls back to its overridden fill; untouched layer 4
resolves stroke = fill from the palette. -/
theorem stroke_color_default_w :
    (lastFor 7 c7Entries = some e7 ∧ entryFrame e7 ≠ "" ∧
     ((parseLyp c7Entries).frames 7).getD (styleAt 0).2.1 = entryFrame e7) ∧
    (lastFor 9 c7Entries = some e9 ∧ entryFrame e9 = "" ∧
     ((parseLyp c7Entries).frames 9).getD (styleAt 1).2.1
       = ((parseLyp c7Entries).fills 9).getD (styleAt 1).1) ∧
    (lastFor 4 c7Entries = none ∧
     ((parseLyp c7Entries).frames 4).getD (styleAt 2).2.1
       = ((parseLyp c7Entries).fills 4).getD (styleAt 2).1) :=
  ⟨⟨by decide, by decide,
    (stroke_color_default c7Entries 7 0).1 e7 (by decide) (by decide)⟩,
   ⟨by decide, by decide,
    (stroke_color_default c7Entries 9 1).2.1 e9 (by decide) (by decide)⟩,
   ⟨by decide,
    (stroke_color_default c7Entries 4 2).2.2 (by decide)⟩⟩

theorem assignLayers_getD (m : LypMaps) (pf : ℤ → List (List ℚ))
    (bf : ℤ → List BBox) :
    ∀ (ids : List ℤ) (k j : ℕ), j < ids.length →
      (assignLayers m pf bf k ids).getD j defaultLayer =
        { lnum := ids.getD j 0
          lname := (m.names (ids.getD j 0)).getD
            (toString (ids.getD j 0) ++ "/0")
          fill := (m.fills (ids.getD j 0)).getD (styleAt (k + j)).1
          frame := (m.frames (ids.getD j 0)).getD (styleAt (k + j)).2.1
          stip := (styleAt (k + j)).2.2
          polys := pf (ids.getD j 0)
          bounds := bf (ids.getD j 0) } := by
  intro ids
  induction ids with
  | nil => intro k j h; exact absurd h (by simp)
  | cons nId l ih =>
    intro k j h
    cases j with
    | zero => simp [assignLayers]
    | succ j2 =>
      have h2 : j2 < l.length := by simpa using h
      simp only [assignLayers, List.getD_cons_succ]
      rw [ih (k + 1) j2 h2,
          show k + 1 + j2 = k + (j2 + 1) from by omega]

/-- C8: palette by sorted rank.  The layer ids present in a cell are sorted
ascending (the built order is sorted and a permutation of the distinct
present ids), and the layer at rank `i` of that order receives the palette
entry at index `i mod 16` — its stipple always, and its fill color whenever
no .lyp override exists for that layer — independent of the numeric layer-id
values. -/
theorem palette_by_sorted_rank (m : LypMaps)
    (cellPolys : List (ℤ × List ℚ × BBox)) (i : ℕ)
    (h : i < (sortIds (cellPolys.map (fun p => p.1)).dedup).length) :
    List.Sorted (· ≤ ·) (sortIds (cellPolys.map (fun p => p.1)).dedup) ∧
    List.Perm (sortIds (cellPolys.map (fun p => p.1)).dedup)
      (cellPolys.map (fun p => p.1)).dedup ∧
    ((buildCellLayers m cellPolys).getD i defaultLayer).lnum
      = (sortIds (cellPolys.map (fun p => p.1)).dedup).getD i 0 ∧
    ((buildCellLayers m cellPolys).getD i defaultLayer).stip
      = (styleAt i).2.2 ∧
    (m.fills ((sortIds (cellPolys.map (fun p => p.1)).dedup).getD i 0) = none
      → ((buildCellLayers m cellPolys).getD i defaultLayer).fill
          = (styleAt i).1) := by
  have hget := assignLayers_getD m
    (fun nId => (cellPolys.filter (fun p => p.1 == nId)).map (fun p => p.2.1))
    (fun nId => (cellPolys.filter (fun p => p.1 == nId)).map (fun p => p.2.2))
    (sortIds (cellPolys.map (fun p => p.1)).dedup) 0 i h
  refine ⟨List.sorted_insertionSort _ _, List.perm_insertionSort _ _,
    ?_, ?_, ?_⟩
  · rw [show buildCellLayers m cellPolys = assignLayers m _ _ 0
        (sortIds (cellPolys.map (fun p => p.1)).dedup) from rfl, hget]
  · rw [show buildCellLayers m cellPolys = assignLayers m _ _ 0
        (sortIds (cellPolys.map (fun p => p.1)).dedup) from rfl, hget]
    simp
  · intro hnone
    rw [show buildCellLayers m cellPolys = assignLayers m _ _ 0
        (sortIds (cellPolys.map (fun p => p.1)).dedup) from rfl, hget]
    show (m.fills _).getD (styleAt (0 + i)).1 = _
    rw [Nat.zero_add, hnone]
    rfl

/-- Two-polygon fixture with layer ids 5 and 1 (listed unsorted). -/
def demoPolys : List (ℤ × List ℚ × BBox) :=
  [(5, [0, 0, 1, 0, 1, 1], ⟨0, 0, 1, 1⟩),
   (1, [2, 2, 3, 2, 3, 3], ⟨2, 2, 3, 3⟩)]

/-- Witness for C8, the spec's scenario: layers 1 and 5 with no override.
Rank order is [1, 5]; layer 1 (rank 0) gets palette entry 0
("#ff0000", stipple 2) and layer 5 (rank 1) gets palette entry 1
("#00ff00", stipple 4) — rank order, not numeric value. -/
theorem palette_by_sorted_rank_w :
    sortIds ((demoPolys.map (fun p => p.1)).dedup) = [1, 5] ∧
    ((buildCellLayers emptyMaps demoPolys).getD 0 defaultLayer).lnum = 1 ∧
    ((buildCellLayers emptyMaps demoPolys).getD 0 defaultLayer).stip = 2 ∧
    ((buildCellLayers emptyMaps demoPolys).getD 0 defaultLayer).fill
      = "#ff0000" ∧
    ((buildCellLayers emptyMaps demoPolys).getD 1 defaultLayer).lnum = 5 ∧
    ((buildCellLayers emptyMaps demoPolys).getD 1 defaultLayer).stip = 4 ∧
    ((buildCellLayers emptyMaps demoPolys).getD 1 defaultLayer).fill
      = "#00ff00" := by
  have h0 := palette_by_sorted_rank emptyMaps demoPolys 0 (by decide)
  have h1 := palette_by_sorted_rank emptyMaps demoPolys 1 (by decide)
  refine ⟨by decide, ?_, ?_, ?_, ?_, ?_, ?_⟩
  · exact h0.2.2.1.trans (by decide)
  · exact h0.2.2.2.1.trans (by decide)
  · exact (h0.2.2.2.2 (by decide)).trans (by decide)
  · exact h1.2.2.1.trans (by decide)
  · exact h1.2.2.2.1.trans (by decide)
  · exact (h1.2.2.2.2 (by decide)).trans (by decide)

end LuxViewer
